import Mathlib

/-!
Shallow embedding of the NFP CPP control-bus abstraction layer
(`drivers/net/nfp/nfpcore/nfp_cpp.h`): the identifier codec macros, the
16-bit interface-id codec, and models of the distributed mutex engine and
the area read/write surface, together with theorems checking the
specification's claims against these definitions.
-/

namespace NfpCpp

/-! ## Identifier codec (macros in nfp_cpp.h, lines 126-210) -/

/-- `#define NFP_CPP_ACTION_RW 32` — reserved read-or-write wildcard action. -/
def NFP_CPP_ACTION_RW : Nat := 32

/-- `#define NFP_CPP_TARGET_ID_MASK 0x1f` -/
def NFP_CPP_TARGET_ID_MASK : Nat := 0x1f

/-- `NFP_CPP_ID(target, action, token)`: pack target, token and action into a
32-bit CPP identifier (no island field). -/
def NFP_CPP_ID (target action token : Nat) : Nat :=
  ((target &&& 0x7f) <<< 24) ||| ((token &&& 0xff) <<< 16) ||| ((action &&& 0xff) <<< 8)

/-- `NFP_CPP_ISLAND_ID(target, action, token, island)`: pack target, token,
action and island into a 32-bit CPP identifier. -/
def NFP_CPP_ISLAND_ID (target action token island : Nat) : Nat :=
  ((target &&& 0x7f) <<< 24) ||| ((token &&& 0xff) <<< 16) |||
    ((action &&& 0xff) <<< 8) ||| ((island &&& 0xff) <<< 0)

/-- `NFP_CPP_ID_TARGET_of(id)`: `(id >> 24) & NFP_CPP_TARGET_ID_MASK`. -/
def NFP_CPP_ID_TARGET_of (id : Nat) : Nat :=
  (id >>> 24) &&& NFP_CPP_TARGET_ID_MASK

/-- `NFP_CPP_ID_TOKEN_of(id)`: `(id >> 16) & 0xff`. -/
def NFP_CPP_ID_TOKEN_of (id : Nat) : Nat :=
  (id >>> 16) &&& 0xff

/-- `NFP_CPP_ID_ACTION_of(id)`: `(id >> 8) & 0xff`. -/
def NFP_CPP_ID_ACTION_of (id : Nat) : Nat :=
  (id >>> 8) &&& 0xff

/-- `NFP_CPP_ID_ISLAND_of(id)`: `id & 0xff`. -/
def NFP_CPP_ID_ISLAND_of (id : Nat) : Nat :=
  id &&& 0xff

/-! ## 16-bit interface-id codec (macros in nfp_cpp.h, lines 348-372) -/

/-- `NFP_CPP_INTERFACE(type, unit, channel)`: pack a 16-bit interface id
from 4 bits of type, 4 bits of unit and 8 bits of channel. -/
def NFP_CPP_INTERFACE (type unit channel : Nat) : Nat :=
  ((type &&& 0xf) <<< 12) ||| ((unit &&& 0xf) <<< 8) ||| ((channel &&& 0xff) <<< 0)

/-- `NFP_CPP_INTERFACE_TYPE_of(interface)`: `(interface >> 12) & 0xf`. -/
def NFP_CPP_INTERFACE_TYPE_of (ifc : Nat) : Nat :=
  (ifc >>> 12) &&& 0xf

/-- `NFP_CPP_INTERFACE_UNIT_of(interface)`: `(interface >> 8) & 0xf`. -/
def NFP_CPP_INTERFACE_UNIT_of (ifc : Nat) : Nat :=
  (ifc >>> 8) &&& 0xf

/-- `NFP_CPP_INTERFACE_CHANNEL_of(interface)`: `(interface >> 0) & 0xff`. -/
def NFP_CPP_INTERFACE_CHANNEL_of (ifc : Nat) : Nat :=
  (ifc >>> 0) &&& 0xff

/-! ## Distributed mutex engine

The bodies of `nfp_cpp_mutex_init` / `alloc` / `free` / `lock` / `unlock` /
`trylock` (declared at nfp_cpp.h lines 705-759) are not part of this
repository slice, so the engine is modelled from the specification's
description of the on-device word and its transitions. -/

/-- Modelled from the spec: the persisted on-device 64-bit mutex word, which
encodes a lock bit, the owning 16-bit interface id and the 32-bit key id
(the exact bit split inside the word is an implementation choice, so the
three fields are kept as structure fields). -/
structure MutexWord where
  lockBit : Bool
  owner : Nat
  key : Nat
deriving DecidableEq

/-- Modelled from the spec: a local mutex handle (`struct nfp_cpp_mutex`)
carrying the owning device handle's interface id, the target id, the
64-bit-aligned device address, and the caller-chosen 32-bit key id. -/
structure MutexHandle where
  interface : Nat
  target : Int
  address : Nat
  key : Nat
deriving DecidableEq

/-- Modelled from the spec: the canonical Unlocked word holding key `k`. -/
def MutexWord.unlockedWith (k : Nat) : MutexWord :=
  ⟨false, 0, k⟩

/-- Modelled from the spec: the word Locked-by interface `i` with key `k`. -/
def MutexWord.lockedBy (i k : Nat) : MutexWord :=
  ⟨true, i, k⟩

/-- Modelled from the spec: the MU Atomic engine's compare-and-swap
primitive — replaces the word with `new` only if it currently equals
`expected`, and reports whether the swap took effect. -/
def muCompareAndSwap (w expected new : MutexWord) : Bool × MutexWord :=
  if w = expected then (true, new) else (false, w)

/-- Modelled from the spec: `nfp_cpp_mutex_init` writes the initial word as
Locked-by the caller's interface with the given key. -/
def nfp_cpp_mutex_init (ifc key_id : Nat) : MutexWord :=
  MutexWord.lockedBy ifc key_id

/-- Modelled from the spec: `nfp_cpp_mutex_alloc` reads the existing word and
fails (returns no handle) when its stored key differs from `key_id`; on a
matching key it returns a local handle without asserting ownership. The
device word is threaded through to expose that the operation never writes
it. -/
def nfp_cpp_mutex_alloc (ifc : Nat) (target : Int) (address key_id : Nat)
    (w : MutexWord) : Option MutexHandle × MutexWord :=
  if w.key = key_id then
    (some ⟨ifc, target, address, key_id⟩, w)
  else
    (none, w)

/-- Modelled from the spec: `nfp_cpp_mutex_free` destroys the local handle
only — it drops the handle from the device handle's mutex cache and never
mutates the on-device word. -/
def nfp_cpp_mutex_free (m : MutexHandle) (cache : List MutexHandle)
    (w : MutexWord) : List MutexHandle × MutexWord :=
  (cache.filter (fun h => h != m), w)

/-- Modelled from the spec: `nfp_cpp_mutex_trylock` is a single
compare-and-swap attempt from Unlocked to Locked-by(self); it returns 0 when
the swap takes effect and a negative would-block result on contention. -/
def nfp_cpp_mutex_trylock (m : MutexHandle) (w : MutexWord) : Int × MutexWord :=
  let r := muCompareAndSwap w (MutexWord.unlockedWith m.key)
    (MutexWord.lockedBy m.interface m.key)
  (if r.1 then 0 else -16, r.2)

/-- Modelled from the spec: `nfp_cpp_mutex_lock` retries the trylock
compare-and-swap with a bounded retry budget (`fuel`), returning 0 only once
a swap is observed to have taken effect and a negative timeout result when
the budget is exhausted. -/
def nfp_cpp_mutex_lock : Nat → MutexHandle → MutexWord → Int × MutexWord
  | 0, _, w => (-110, w)
  | fuel + 1, m, w =>
    let r := nfp_cpp_mutex_trylock m w
    if r.1 = 0 then r else nfp_cpp_mutex_lock fuel m r.2

/-- Modelled from the spec: `nfp_cpp_mutex_unlock` re-reads ownership before
the swap — if the word is not currently Locked-by the caller's interface id
it fails without touching the word; otherwise it compare-and-swaps the word
back to Unlocked. -/
def nfp_cpp_mutex_unlock (m : MutexHandle) (w : MutexWord) : Int × MutexWord :=
  if w.lockBit = true ∧ w.owner = m.interface then
    let r := muCompareAndSwap w (MutexWord.lockedBy m.interface w.key)
      (MutexWord.unlockedWith w.key)
    (if r.1 then 0 else -13, r.2)
  else
    (-13, w)

/-! ## Area read/write surface

The bodies of `nfp_cpp_area_read` / `nfp_cpp_area_write` and the typed
`readl` / `writel` / `readq` / `writeq` accessors (declared at nfp_cpp.h
lines 471-610) are not part of this repository slice, so they are modelled
from the specification's transport contract, over a no-op-counting fake
backend. -/

/-- Modelled from the spec: the area lifecycle state. -/
inductive AreaState
  | allocated
  | acquired
deriving DecidableEq

/-- Modelled from the spec: an area descriptor (`struct nfp_cpp_area`) with
its reserved size and lifecycle state. -/
structure AreaDesc where
  size : Nat
  state : AreaState
deriving DecidableEq

/-- Modelled from the spec: a no-op-counting fake transport backend — a byte
memory backing the area's window plus a counter of performed I/O
operations. -/
structure FakeBackend where
  mem : List Nat
  ioCount : Nat
deriving DecidableEq

/-- Modelled from the spec: `nfp_cpp_area_read` — valid only on an acquired
area; an out-of-range request (offset + length beyond the reserved size)
fails with a negative result and performs zero bytes of I/O. Returns the
status, the bytes read and the backend state. -/
def nfp_cpp_area_read (area : AreaDesc) (be : FakeBackend)
    (offset length : Nat) : Int × List Nat × FakeBackend :=
  if area.state = AreaState.acquired ∧ offset + length ≤ area.size then
    (Int.ofNat length, (be.mem.drop offset).take length,
      ⟨be.mem, be.ioCount + 1⟩)
  else
    (-14, [], be)

/-- Modelled from the spec: `nfp_cpp_area_write` — valid only on an acquired
area; an out-of-range request fails with a negative result and performs zero
bytes of I/O. Returns the status and the backend state. -/
def nfp_cpp_area_write (area : AreaDesc) (be : FakeBackend)
    (offset : Nat) (data : List Nat) : Int × FakeBackend :=
  if area.state = AreaState.acquired ∧ offset + data.length ≤ area.size then
    (Int.ofNat data.length,
      ⟨be.mem.take offset ++ data ++ be.mem.drop (offset + data.length),
        be.ioCount + 1⟩)
  else
    (-14, be)

/-- Little-endian byte decomposition of a machine word into `n` bytes. -/
def wordToBytes (n w : Nat) : List Nat :=
  (List.range n).map (fun i => (w >>> (8 * i)) &&& 0xff)

/-- Little-endian recomposition of a byte list into a machine word. -/
def bytesToWord (bs : List Nat) : Nat :=
  bs.foldr (fun b acc => b + (acc <<< 8)) 0

/-- Modelled from the spec: `nfp_cpp_area_readl` — requires the offset to be
32-bit aligned, failing with an alignment error otherwise, and is built on
the byte-oriented `nfp_cpp_area_read`. -/
def nfp_cpp_area_readl (area : AreaDesc) (be : FakeBackend) (offset : Nat) :
    Int × Nat × FakeBackend :=
  if offset % 4 = 0 then
    let r := nfp_cpp_area_read area be offset 4
    (if r.1 = 4 then 0 else -22, bytesToWord r.2.1, r.2.2)
  else
    (-22, 0, be)

/-- Modelled from the spec: `nfp_cpp_area_writel` — requires the offset to be
32-bit aligned, failing with an alignment error otherwise, and is built on
the byte-oriented `nfp_cpp_area_write`. -/
def nfp_cpp_area_writel (area : AreaDesc) (be : FakeBackend)
    (offset value : Nat) : Int × FakeBackend :=
  if offset % 4 = 0 then
    let r := nfp_cpp_area_write area be offset (wordToBytes 4 value)
    (if r.1 = 4 then 0 else -22, r.2)
  else
    (-22, be)

/-- Modelled from the spec: `nfp_cpp_area_readq` — requires the offset to be
64-bit aligned, failing with an alignment error otherwise, and is built on
the byte-oriented `nfp_cpp_area_read`. -/
def nfp_cpp_area_readq (area : AreaDesc) (be : FakeBackend) (offset : Nat) :
    Int × Nat × FakeBackend :=
  if offset % 8 = 0 then
    let r := nfp_cpp_area_read area be offset 8
    (if r.1 = 8 then 0 else -22, bytesToWord r.2.1, r.2.2)
  else
    (-22, 0, be)

/-- Modelled from the spec: `nfp_cpp_area_writeq` — requires the offset to be
64-bit aligned, failing with an alignment error otherwise, and is built on
the byte-oriented `nfp_cpp_area_write`. -/
def nfp_cpp_area_writeq (area : AreaDesc) (be : FakeBackend)
    (offset value : Nat) : Int × FakeBackend :=
  if offset % 8 = 0 then
    let r := nfp_cpp_area_write area be offset (wordToBytes 8 value)
    (if r.1 = 8 then 0 else -22, r.2)
  else
    (-22, be)

end NfpCpp

namespace NfpCpp

/-! ## Codec helper lemmas -/

theorem target_of_island_id (t a tk isl : Nat) :
    NFP_CPP_ID_TARGET_of (NFP_CPP_ISLAND_ID t a tk isl) = t &&& 0x1f := by
  apply Nat.eq_of_testBit_eq
  intro i
  have h7 : (0x7f : Nat) = 2 ^ 7 - 1 := by norm_num
  have h8 : (0xff : Nat) = 2 ^ 8 - 1 := by norm_num
  have h5 : (0x1f : Nat) = 2 ^ 5 - 1 := by norm_num
  simp only [NFP_CPP_ID_TARGET_of, NFP_CPP_ISLAND_ID, NFP_CPP_TARGET_ID_MASK,
    h7, h8, h5, Nat.testBit_and, Nat.testBit_or, Nat.testBit_shiftLeft,
    Nat.testBit_shiftRight, Nat.testBit_two_pow_sub_one]
  by_cases hi : i < 5
  · have c1 : i < 7 := by omega
    have c2 : ¬(24 + i - 16 < 8) := by omega
    have c3 : ¬(24 + i - 8 < 8) := by omega
    have c4 : ¬(24 + i < 8) := by omega
    simp [hi, c1, c2, c3, c4]
  · simp [hi]

theorem token_of_island_id (t a tk isl : Nat) :
    NFP_CPP_ID_TOKEN_of (NFP_CPP_ISLAND_ID t a tk isl) = tk &&& 0xff := by
  apply Nat.eq_of_testBit_eq
  intro i
  have h7 : (0x7f : Nat) = 2 ^ 7 - 1 := by norm_num
  have h8 : (0xff : Nat) = 2 ^ 8 - 1 := by norm_num
  simp only [NFP_CPP_ID_TOKEN_of, NFP_CPP_ISLAND_ID,
    h7, h8, Nat.testBit_and, Nat.testBit_or, Nat.testBit_shiftLeft,
    Nat.testBit_shiftRight, Nat.testBit_two_pow_sub_one]
  by_cases hi : i < 8
  · have c1 : ¬(24 ≤ 16 + i) := by omega
    have c2 : ¬(16 + i - 8 < 8) := by omega
    have c3 : ¬(16 + i < 8) := by omega
    simp [hi, c1, c2, c3]
  · simp [hi]

theorem action_of_island_id (t a tk isl : Nat) :
    NFP_CPP_ID_ACTION_of (NFP_CPP_ISLAND_ID t a tk isl) = a &&& 0xff := by
  apply Nat.eq_of_testBit_eq
  intro i
  have h7 : (0x7f : Nat) = 2 ^ 7 - 1 := by norm_num
  have h8 : (0xff : Nat) = 2 ^ 8 - 1 := by norm_num
  simp only [NFP_CPP_ID_ACTION_of, NFP_CPP_ISLAND_ID,
    h7, h8, Nat.testBit_and, Nat.testBit_or, Nat.testBit_shiftLeft,
    Nat.testBit_shiftRight, Nat.testBit_two_pow_sub_one]
  by_cases hi : i < 8
  · have c1 : ¬(24 ≤ 8 + i) := by omega
    have c2 : ¬(16 ≤ 8 + i) := by omega
    have c3 : ¬(8 + i < 8) := by omega
    simp [hi, c1, c2, c3]
  · simp [hi]

theorem island_of_island_id (t a tk isl : Nat) :
    NFP_CPP_ID_ISLAND_of (NFP_CPP_ISLAND_ID t a tk isl) = isl &&& 0xff := by
  apply Nat.eq_of_testBit_eq
  intro i
  have h7 : (0x7f : Nat) = 2 ^ 7 - 1 := by norm_num
  have h8 : (0xff : Nat) = 2 ^ 8 - 1 := by norm_num
  simp only [NFP_CPP_ID_ISLAND_of, NFP_CPP_ISLAND_ID,
    h7, h8, Nat.testBit_and, Nat.testBit_or, Nat.testBit_shiftLeft,
    Nat.testBit_shiftRight, Nat.testBit_two_pow_sub_one]
  by_cases hi : i < 8
  · have c1 : ¬(24 ≤ i) := by omega
    have c2 : ¬(16 ≤ i) := by omega
    have c3 : ¬(8 ≤ i) := by omega
    simp [hi, c1, c2, c3]
  · simp [hi]

theorem id_eq_island_id_zero (t a tk : Nat) :
    NFP_CPP_ID t a tk = NFP_CPP_ISLAND_ID t a tk 0 := by
  simp [NFP_CPP_ID, NFP_CPP_ISLAND_ID]

theorem target_of_le (id : Nat) : NFP_CPP_ID_TARGET_of id ≤ 0x1f :=
  Nat.and_le_right

theorem token_of_div_mod (id : Nat) :
    NFP_CPP_ID_TOKEN_of id = id / 2 ^ 16 % 2 ^ 8 := by
  have h8 : (0xff : Nat) = 2 ^ 8 - 1 := by norm_num
  rw [NFP_CPP_ID_TOKEN_of, h8, Nat.and_pow_two_sub_one_eq_mod,
    Nat.shiftRight_eq_div_pow]

theorem action_of_div_mod (id : Nat) :
    NFP_CPP_ID_ACTION_of id = id / 2 ^ 8 % 2 ^ 8 := by
  have h8 : (0xff : Nat) = 2 ^ 8 - 1 := by norm_num
  rw [NFP_CPP_ID_ACTION_of, h8, Nat.and_pow_two_sub_one_eq_mod,
    Nat.shiftRight_eq_div_pow]

theorem island_of_div_mod (id : Nat) :
    NFP_CPP_ID_ISLAND_of id = id % 2 ^ 8 := by
  have h8 : (0xff : Nat) = 2 ^ 8 - 1 := by norm_num
  rw [NFP_CPP_ID_ISLAND_of, h8, Nat.and_pow_two_sub_one_eq_mod]

theorem target_of_div_mod (id : Nat) :
    NFP_CPP_ID_TARGET_of id = id / 2 ^ 24 % 2 ^ 5 := by
  have h5 : NFP_CPP_TARGET_ID_MASK = 2 ^ 5 - 1 := by norm_num [NFP_CPP_TARGET_ID_MASK]
  rw [NFP_CPP_ID_TARGET_of, h5, Nat.and_pow_two_sub_one_eq_mod,
    Nat.shiftRight_eq_div_pow]

/-! ## Interface-id helper lemmas -/

theorem interface_lt_two_pow_16 (t u c : Nat) :
    NFP_CPP_INTERFACE t u c < 2 ^ 16 := by
  apply Nat.lt_pow_two_of_testBit
  intro i hi
  have h4 : (0xf : Nat) = 2 ^ 4 - 1 := by norm_num
  have h8 : (0xff : Nat) = 2 ^ 8 - 1 := by norm_num
  simp only [NFP_CPP_INTERFACE, h4, h8, Nat.testBit_and, Nat.testBit_or,
    Nat.testBit_shiftLeft, Nat.testBit_two_pow_sub_one]
  have c1 : ¬(i - 12 < 4) := by omega
  have c2 : ¬(i - 8 < 4) := by omega
  have c3 : ¬(i < 8) := by omega
  simp [c1, c2, c3]

theorem type_of_interface (t u c : Nat) :
    NFP_CPP_INTERFACE_TYPE_of (NFP_CPP_INTERFACE t u c) = t &&& 0xf := by
  apply Nat.eq_of_testBit_eq
  intro i
  have h4 : (0xf : Nat) = 2 ^ 4 - 1 := by norm_num
  have h8 : (0xff : Nat) = 2 ^ 8 - 1 := by norm_num
  simp only [NFP_CPP_INTERFACE_TYPE_of, NFP_CPP_INTERFACE, h4, h8,
    Nat.testBit_and, Nat.testBit_or, Nat.testBit_shiftLeft,
    Nat.testBit_shiftRight, Nat.testBit_two_pow_sub_one]
  by_cases hi : i < 4
  · have c1 : ¬(12 + i - 8 < 4) := by omega
    have c2 : ¬(12 + i < 8) := by omega
    simp [hi, c1, c2]
  · simp [hi]

theorem unit_of_interface (t u c : Nat) :
    NFP_CPP_INTERFACE_UNIT_of (NFP_CPP_INTERFACE t u c) = u &&& 0xf := by
  apply Nat.eq_of_testBit_eq
  intro i
  have h4 : (0xf : Nat) = 2 ^ 4 - 1 := by norm_num
  have h8 : (0xff : Nat) = 2 ^ 8 - 1 := by norm_num
  simp only [NFP_CPP_INTERFACE_UNIT_of, NFP_CPP_INTERFACE, h4, h8,
    Nat.testBit_and, Nat.testBit_or, Nat.testBit_shiftLeft,
    Nat.testBit_shiftRight, Nat.testBit_two_pow_sub_one]
  by_cases hi : i < 4
  · have c1 : ¬(12 ≤ 8 + i) := by omega
    have c2 : ¬(8 + i < 8) := by omega
    simp [hi, c1, c2]
  · simp [hi]

theorem channel_of_interface (t u c : Nat) :
    NFP_CPP_INTERFACE_CHANNEL_of (NFP_CPP_INTERFACE t u c) = c &&& 0xff := by
  apply Nat.eq_of_testBit_eq
  intro i
  have h4 : (0xf : Nat) = 2 ^ 4 - 1 := by norm_num
  have h8 : (0xff : Nat) = 2 ^ 8 - 1 := by norm_num
  simp only [NFP_CPP_INTERFACE_CHANNEL_of, NFP_CPP_INTERFACE, h4, h8,
    Nat.testBit_and, Nat.testBit_or, Nat.testBit_shiftLeft,
    Nat.testBit_shiftRight, Nat.testBit_two_pow_sub_one]
  by_cases hi : i < 8
  · have c1 : ¬(12 ≤ i) := by omega
    have c2 : ¬(8 ≤ i) := by omega
    simp [hi, c1, c2]
  · simp [hi]

/-! ## Mutex and area helper lemmas -/

theorem lock_of_locked (b : MutexHandle) (i k : Nat) :
    ∀ fuel, nfp_cpp_mutex_lock fuel b (MutexWord.lockedBy i k)
      = (-110, MutexWord.lockedBy i k) := by
  intro fuel
  induction fuel with
  | zero => rfl
  | succ n ih =>
    have htl : nfp_cpp_mutex_trylock b (MutexWord.lockedBy i k)
        = (-16, MutexWord.lockedBy i k) := by
      simp [nfp_cpp_mutex_trylock, muCompareAndSwap, MutexWord.lockedBy,
        MutexWord.unlockedWith]
    simp [nfp_cpp_mutex_lock, htl, ih]

theorem wordToBytes_length (n w : Nat) : (wordToBytes n w).length = n := by
  simp [wordToBytes]

/-! ## Claim theorems -/

/-- Claim C1, counterexample: the claim that decoding the target of a packed
identifier returns the target masked to 7 bits fails at target 32 — the
decoder masks with the 5-bit `NFP_CPP_TARGET_ID_MASK`, so
`NFP_CPP_ID_TARGET_of (NFP_CPP_ISLAND_ID 32 0 0 0)` is 0, not `32 &&& 0x7f =
32`. -/
theorem claim1_target_7bit_roundtrip_cex :
    ¬(NFP_CPP_ID_TARGET_of (NFP_CPP_ISLAND_ID 32 0 0 0) = 32 &&& 0x7f) := by
  decide

/-- Claim C1, amended: decoding each field of the packed 32-bit identifier
produced by `NFP_CPP_ISLAND_ID` returns the field after the decoder's
declared mask — target masked to the 5-bit `NFP_CPP_TARGET_ID_MASK` (so
`t &&& 0x1f`), token, action and island to 8 bits each. -/
theorem claim1_island_id_decode_roundtrip (t a tk isl : Nat) :
    NFP_CPP_ID_TARGET_of (NFP_CPP_ISLAND_ID t a tk isl) = t &&& 0x1f ∧
    NFP_CPP_ID_TOKEN_of (NFP_CPP_ISLAND_ID t a tk isl) = tk &&& 0xff ∧
    NFP_CPP_ID_ACTION_of (NFP_CPP_ISLAND_ID t a tk isl) = a &&& 0xff ∧
    NFP_CPP_ID_ISLAND_of (NFP_CPP_ISLAND_ID t a tk isl) = isl &&& 0xff :=
  ⟨target_of_island_id t a tk isl, token_of_island_id t a tk isl,
    action_of_island_id t a tk isl, island_of_island_id t a tk isl⟩

/-- Claim C8: the identifier codec is made of pure total functions; each
extractor of a 32-bit id returns its field shifted down from its declared
position and masked to its width — token is bits 16-23, action bits 8-15,
island bits 0-7 — and the reserved read-or-write wildcard action value is
32. -/
theorem claim8_id_codec_extractors (id : Nat) :
    NFP_CPP_ID_TOKEN_of id = id / 2 ^ 16 % 2 ^ 8 ∧
    NFP_CPP_ID_ACTION_of id = id / 2 ^ 8 % 2 ^ 8 ∧
    NFP_CPP_ID_ISLAND_of id = id % 2 ^ 8 ∧
    NFP_CPP_ACTION_RW = 32 :=
  ⟨token_of_div_mod id, action_of_div_mod id, island_of_div_mod id, rfl⟩

/-- Claim C9: the 16-bit interface id built by `NFP_CPP_INTERFACE` always
fits in 16 bits, and the extractors recover each field after its declared
mask — type is bits 12-15, unit bits 8-11, channel bits 0-7. -/
theorem claim9_interface_id_roundtrip (t u c : Nat) :
    NFP_CPP_INTERFACE t u c < 2 ^ 16 ∧
    NFP_CPP_INTERFACE_TYPE_of (NFP_CPP_INTERFACE t u c) = t &&& 0xf ∧
    NFP_CPP_INTERFACE_UNIT_of (NFP_CPP_INTERFACE t u c) = u &&& 0xf ∧
    NFP_CPP_INTERFACE_CHANNEL_of (NFP_CPP_INTERFACE t u c) = c &&& 0xff :=
  ⟨interface_lt_two_pow_16 t u c, type_of_interface t u c,
    unit_of_interface t u c, channel_of_interface t u c⟩

/-- Claim C10: the decoded target of any identifier is bounded by the 5-bit
`NFP_CPP_TARGET_ID_MASK` (0x1f), an identifier built without an island
equals `NFP_CPP_ISLAND_ID` with island 0, and its island field decodes to
0. -/
theorem claim10_target_mask_island_default (id t a tk : Nat) :
    NFP_CPP_ID_TARGET_of id ≤ 0x1f ∧
    NFP_CPP_ID t a tk = NFP_CPP_ISLAND_ID t a tk 0 ∧
    NFP_CPP_ID_ISLAND_of (NFP_CPP_ID t a tk) = 0 := by
  refine ⟨target_of_le id, id_eq_island_id_zero t a tk, ?_⟩
  rw [id_eq_island_id_zero, island_of_island_id]
  simp

/-- Claim C2: two callers racing `lock` on the same word, modelled as
interleavings of atomic compare-and-swap steps — from the Unlocked word, the
first compare-and-swap to land succeeds and installs Locked-by that caller;
the other caller's bounded-retry lock never succeeds (with any retry budget)
and leaves the word unchanged while the winner holds it; once the winner
unlocks, the other caller's next attempt succeeds. -/
theorem claim2_mutex_lock_mutual_exclusion (a b : MutexHandle) (k fuel : Nat)
    (hab : a.interface ≠ b.interface) (ha : a.key = k) (hb : b.key = k) :
    (nfp_cpp_mutex_trylock a (MutexWord.unlockedWith k)).1 = 0 ∧
    (nfp_cpp_mutex_trylock a (MutexWord.unlockedWith k)).2
      = MutexWord.lockedBy a.interface k ∧
    nfp_cpp_mutex_lock fuel b (MutexWord.lockedBy a.interface k)
      = (-110, MutexWord.lockedBy a.interface k) ∧
    (nfp_cpp_mutex_unlock a (MutexWord.lockedBy a.interface k)).1 = 0 ∧
    (nfp_cpp_mutex_trylock b
        (nfp_cpp_mutex_unlock a (MutexWord.lockedBy a.interface k)).2).1 = 0 := by
  have hunlock : nfp_cpp_mutex_unlock a (MutexWord.lockedBy a.interface k)
      = (0, MutexWord.unlockedWith k) := by
    simp [nfp_cpp_mutex_unlock, muCompareAndSwap, MutexWord.lockedBy,
      MutexWord.unlockedWith]
  refine ⟨?_, ?_, lock_of_locked b a.interface k fuel, ?_, ?_⟩
  · simp [nfp_cpp_mutex_trylock, muCompareAndSwap, MutexWord.unlockedWith, ha]
  · simp [nfp_cpp_mutex_trylock, muCompareAndSwap, MutexWord.unlockedWith,
      MutexWord.lockedBy, ha]
  · rw [hunlock]
  · rw [hunlock]
    simp [nfp_cpp_mutex_trylock, muCompareAndSwap, MutexWord.unlockedWith, hb]

/-- Claim C2 witness at concrete handles and retry budget. -/
theorem claim2_mutex_lock_mutual_exclusion_witness :
    (nfp_cpp_mutex_trylock ⟨1, 7, 4096, 43981⟩
        (MutexWord.unlockedWith 43981)).1 = 0 ∧
    (nfp_cpp_mutex_trylock ⟨1, 7, 4096, 43981⟩
        (MutexWord.unlockedWith 43981)).2 = MutexWord.lockedBy 1 43981 ∧
    nfp_cpp_mutex_lock 5 ⟨2, 7, 4096, 43981⟩ (MutexWord.lockedBy 1 43981)
      = (-110, MutexWord.lockedBy 1 43981) ∧
    (nfp_cpp_mutex_unlock ⟨1, 7, 4096, 43981⟩
        (MutexWord.lockedBy 1 43981)).1 = 0 ∧
    (nfp_cpp_mutex_trylock ⟨2, 7, 4096, 43981⟩
        (nfp_cpp_mutex_unlock ⟨1, 7, 4096, 43981⟩
          (MutexWord.lockedBy 1 43981)).2).1 = 0 :=
  claim2_mutex_lock_mutual_exclusion ⟨1, 7, 4096, 43981⟩ ⟨2, 7, 4096, 43981⟩
    43981 5 (by decide) rfl rfl

/-- Claim C3: `nfp_cpp_mutex_unlock` from a handle whose interface id does
not match the owner field stored in the device word fails with a negative
result and leaves the word unchanged — it never clears or steals another
owner's lock. -/
theorem claim3_mutex_unlock_owner_check (m : MutexHandle) (w : MutexWord)
    (h : w.owner ≠ m.interface) :
    (nfp_cpp_mutex_unlock m w).1 < 0 ∧ (nfp_cpp_mutex_unlock m w).2 = w := by
  have hg : ¬(w.lockBit = true ∧ w.owner = m.interface) := by
    rintro ⟨-, h2⟩
    exact h h2
  simp [nfp_cpp_mutex_unlock, hg]

/-- Claim C3 witness: unlocking a word owned by interface 2 from a handle
with interface 1 fails and leaves the word unchanged. -/
theorem claim3_mutex_unlock_owner_check_witness :
    (nfp_cpp_mutex_unlock ⟨1, 7, 0, 5⟩ ⟨true, 2, 5⟩).1 < 0 ∧
    (nfp_cpp_mutex_unlock ⟨1, 7, 0, 5⟩ ⟨true, 2, 5⟩).2 = ⟨true, 2, 5⟩ :=
  claim3_mutex_unlock_owner_check ⟨1, 7, 0, 5⟩ ⟨true, 2, 5⟩ (by decide)

/-- Claim C4: `nfp_cpp_mutex_alloc` with a key id differing from the key
stored in the device word returns no handle; with a matching key it returns
a handle; in every case the stored word is left unmodified. -/
theorem claim4_mutex_alloc_key_check (ifc : Nat) (t : Int) (ad k : Nat)
    (w : MutexWord) :
    ((w.key ≠ k → (nfp_cpp_mutex_alloc ifc t ad k w).1 = none) ∧
      (w.key = k → (nfp_cpp_mutex_alloc ifc t ad k w).1 ≠ none)) ∧
    (nfp_cpp_mutex_alloc ifc t ad k w).2 = w := by
  refine ⟨⟨fun h => ?_, fun h => ?_⟩, ?_⟩
  · simp [nfp_cpp_mutex_alloc, h]
  · simp [nfp_cpp_mutex_alloc, h]
  · by_cases h : w.key = k <;> simp [nfp_cpp_mutex_alloc, h]

/-- Claim C4 witness: a key-mismatch alloc (stored key 6, requested 5) fails
and leaves the word unchanged, both on a locked and an unlocked word; a
matching alloc returns a handle. -/
theorem claim4_mutex_alloc_key_check_witness :
    (nfp_cpp_mutex_alloc 1 7 0 5 ⟨false, 0, 6⟩).1 = none ∧
    (nfp_cpp_mutex_alloc 1 7 0 5 ⟨true, 2, 6⟩).1 = none ∧
    (nfp_cpp_mutex_alloc 1 7 0 5 ⟨true, 2, 5⟩).1 ≠ none ∧
    (nfp_cpp_mutex_alloc 1 7 0 5 ⟨false, 0, 6⟩).2 = ⟨false, 0, 6⟩ :=
  ⟨(claim4_mutex_alloc_key_check 1 7 0 5 ⟨false, 0, 6⟩).1.1 (by decide),
    (claim4_mutex_alloc_key_check 1 7 0 5 ⟨true, 2, 6⟩).1.1 (by decide),
    (claim4_mutex_alloc_key_check 1 7 0 5 ⟨true, 2, 5⟩).1.2 rfl,
    (claim4_mutex_alloc_key_check 1 7 0 5 ⟨false, 0, 6⟩).2⟩

/-- Claim C5: on an acquired area, a read or write request whose offset plus
length exceeds the area's reserved size fails with a negative result and
performs zero bytes of I/O — the fake backend (memory and I/O counter) is
left exactly as it was. -/
theorem claim5_area_rw_bounds_no_partial_io (area : AreaDesc)
    (be : FakeBackend) (offset length : Nat) (data : List Nat)
    (hacq : area.state = AreaState.acquired)
    (hr : area.size < offset + length)
    (hw : area.size < offset + data.length) :
    ((nfp_cpp_area_read area be offset length).1 < 0 ∧
      (nfp_cpp_area_read area be offset length).2.2 = be) ∧
    ((nfp_cpp_area_write area be offset data).1 < 0 ∧
      (nfp_cpp_area_write area be offset data).2 = be) := by
  have hg1 : ¬(area.state = AreaState.acquired ∧
      offset + length ≤ area.size) := by
    rintro ⟨-, h⟩
    omega
  have hg2 : ¬(area.state = AreaState.acquired ∧
      offset + data.length ≤ area.size) := by
    rintro ⟨-, h⟩
    omega
  simp [nfp_cpp_area_read, nfp_cpp_area_write, hg1, hg2]

/-- Claim C5 witness: an out-of-range read and write (offset 6, length 4 on
a size-8 acquired area) fail and leave the backend untouched. -/
theorem claim5_area_rw_bounds_no_partial_io_witness :
    ((nfp_cpp_area_read ⟨8, AreaState.acquired⟩
        ⟨List.replicate 8 0, 0⟩ 6 4).1 < 0 ∧
      (nfp_cpp_area_read ⟨8, AreaState.acquired⟩
        ⟨List.replicate 8 0, 0⟩ 6 4).2.2 = ⟨List.replicate 8 0, 0⟩) ∧
    ((nfp_cpp_area_write ⟨8, AreaState.acquired⟩
        ⟨List.replicate 8 0, 0⟩ 6 [1, 2, 3, 4]).1 < 0 ∧
      (nfp_cpp_area_write ⟨8, AreaState.acquired⟩
        ⟨List.replicate 8 0, 0⟩ 6 [1, 2, 3, 4]).2 = ⟨List.replicate 8 0, 0⟩) :=
  claim5_area_rw_bounds_no_partial_io ⟨8, AreaState.acquired⟩
    ⟨List.replicate 8 0, 0⟩ 6 4 [1, 2, 3, 4] rfl (by decide) (by decide)

/-- Claim C6: on an acquired area the typed accessors fail with an alignment
error whenever the offset is not a multiple of 4 (32-bit) or 8 (64-bit)
respectively, and succeed at properly aligned offsets within bounds. -/
theorem claim6_area_typed_access_alignment (area : AreaDesc)
    (be : FakeBackend) (offset value : Nat)
    (hacq : area.state = AreaState.acquired) :
    (offset % 4 ≠ 0 →
      (nfp_cpp_area_readl area be offset).1 < 0 ∧
      (nfp_cpp_area_writel area be offset value).1 < 0) ∧
    (offset % 4 = 0 → offset + 4 ≤ area.size →
      (nfp_cpp_area_readl area be offset).1 = 0 ∧
      (nfp_cpp_area_writel area be offset value).1 = 0) ∧
    (offset % 8 ≠ 0 →
      (nfp_cpp_area_readq area be offset).1 < 0 ∧
      (nfp_cpp_area_writeq area be offset value).1 < 0) ∧
    (offset % 8 = 0 → offset + 8 ≤ area.size →
      (nfp_cpp_area_readq area be offset).1 = 0 ∧
      (nfp_cpp_area_writeq area be offset value).1 = 0) := by
  refine ⟨fun h4 => ?_, fun h4 hb => ?_, fun h8 => ?_, fun h8 hb => ?_⟩
  · constructor
    · simp [nfp_cpp_area_readl, h4]
    · simp [nfp_cpp_area_writel, h4]
  · constructor
    · simp [nfp_cpp_area_readl, h4, nfp_cpp_area_read, hacq, hb]
    · simp [nfp_cpp_area_writel, h4, nfp_cpp_area_write, hacq,
        wordToBytes_length, hb]
  · constructor
    · simp [nfp_cpp_area_readq, h8]
    · simp [nfp_cpp_area_writeq, h8]
  · constructor
    · simp [nfp_cpp_area_readq, h8, nfp_cpp_area_read, hacq, hb]
    · simp [nfp_cpp_area_writeq, h8, nfp_cpp_area_write, hacq,
        wordToBytes_length, hb]

/-- Claim C6 witness: on a size-16 acquired area, offset 2 fails the 32-bit
accessors and offset 4 succeeds; offset 4 fails the 64-bit accessors and
offset 8 succeeds. -/
theorem claim6_area_typed_access_alignment_witness :
    ((nfp_cpp_area_readl ⟨16, AreaState.acquired⟩
        ⟨List.replicate 16 0, 0⟩ 2).1 < 0 ∧
      (nfp_cpp_area_writel ⟨16, AreaState.acquired⟩
        ⟨List.replicate 16 0, 0⟩ 2 7).1 < 0) ∧
    ((nfp_cpp_area_readl ⟨16, AreaState.acquired⟩
        ⟨List.replicate 16 0, 0⟩ 4).1 = 0 ∧
      (nfp_cpp_area_writel ⟨16, AreaState.acquired⟩
        ⟨List.replicate 16 0, 0⟩ 4 7).1 = 0) ∧
    ((nfp_cpp_area_readq ⟨16, AreaState.acquired⟩
        ⟨List.replicate 16 0, 0⟩ 4).1 < 0 ∧
      (nfp_cpp_area_writeq ⟨16, AreaState.acquired⟩
        ⟨List.replicate 16 0, 0⟩ 4 7).1 < 0) ∧
    ((nfp_cpp_area_readq ⟨16, AreaState.acquired⟩
        ⟨List.replicate 16 0, 0⟩ 8).1 = 0 ∧
      (nfp_cpp_area_writeq ⟨16, AreaState.acquired⟩
        ⟨List.replicate 16 0, 0⟩ 8 7).1 = 0) :=
  ⟨(claim6_area_typed_access_alignment ⟨16, AreaState.acquired⟩
      ⟨List.replicate 16 0, 0⟩ 2 7 rfl).1 (by decide),
    (claim6_area_typed_access_alignment ⟨16, AreaState.acquired⟩
      ⟨List.replicate 16 0, 0⟩ 4 7 rfl).2.1 rfl (by decide),
    (claim6_area_typed_access_alignment ⟨16, AreaState.acquired⟩
      ⟨List.replicate 16 0, 0⟩ 4 7 rfl).2.2.1 (by decide),
    (claim6_area_typed_access_alignment ⟨16, AreaState.acquired⟩
      ⟨List.replicate 16 0, 0⟩ 8 7 rfl).2.2.2 rfl (by decide)⟩

/-- Claim C7: `nfp_cpp_mutex_free` destroys only the local handle — for
every handle, cache and device-word state it leaves the on-device lock word
exactly as it was. -/
theorem claim7_mutex_free_preserves_word (m : MutexHandle)
    (cache : List MutexHandle) (w : MutexWord) :
    (nfp_cpp_mutex_free m cache w).2 = w :=
  rfl

end NfpCpp
